import Mathlib

/-!
Verification development for the leafcore IoT backend.

Each definition below is a shallow embedding of a function of the Python
source of the repository; file and function names are kept where Lean
allows.  Numeric sensor and settings values are modelled by rationals,
Python exceptions by Except, and files on disk by explicit state types.
-/

namespace Leafcore

/-! ## SharedStateStore - src/json_manager.py -/

/-- Content found at a file path: the file may be missing, hold bytes that
do not parse as JSON, or hold a valid serialized document of type alpha. -/
inductive StoredFile (α : Type) : Type
  | missing : StoredFile α
  | malformed : StoredFile α
  | valid : α → StoredFile α
  deriving DecidableEq, Repr

/-- Python exceptions that the json_manager code paths can raise. -/
inductive PyError : Type
  | fileNotFound
  | jsonDecode
  | typeError
  deriving DecidableEq, Repr

/-- Body of the try block of load_json_secure: open(file_path) raises
FileNotFoundError on a missing file, json.load raises JSONDecodeError on
content that is not valid JSON, otherwise the parsed document is
returned. -/
def read_and_parse {α : Type} : StoredFile α → Except PyError α
  | .missing => .error .fileNotFound
  | .malformed => .error .jsonDecode
  | .valid d => .ok d

/-- load_json_secure (src/json_manager.py lines 5-18): under a shared
flock, the file is opened and parsed; the except clause catches exactly
JSONDecodeError and FileNotFoundError and returns the empty document. -/
def load_json_secure {α : Type} (empty : α) (f : StoredFile α) : Except PyError α :=
  match read_and_parse f with
  | .ok d => .ok d
  | .error .fileNotFound => .ok empty
  | .error .jsonDecode => .ok empty
  | .error e => .error e

/-- Filesystem state relevant to one store key: the bytes at the target
path and at the sidecar temporary path file_path + .tmp, which lives in
the same directory. -/
structure KeyFS (α : Type) : Type where
  target : StoredFile α
  temp : StoredFile α
  deriving DecidableEq, Repr

/-- The successive operations performed by save_json_secure
(src/json_manager.py lines 20-34), in source order. -/
inductive SaveStep : Type
  | acquireLockEx
  | writeTemp
  | flushTemp
  | fsyncTemp
  | renameTemp
  | releaseLock
  deriving DecidableEq, Repr

/-- save_json_secure's operations in the order the source performs them:
exclusive flock, write of the serialized document to the temp file,
flush, fsync, os.replace of the temp file over the target, unlock. -/
def save_json_secure_steps : List SaveStep :=
  [.acquireLockEx, .writeTemp, .flushTemp, .fsyncTemp, .renameTemp, .releaseLock]

/-- Effect of one completed step of save_json_secure on the filesystem.
Only renameTemp (os.replace, an atomic rename) touches the target path. -/
def save_step {α : Type} (doc : α) : SaveStep → KeyFS α → KeyFS α
  | .acquireLockEx, fs => fs
  | .writeTemp, fs => { fs with temp := .valid doc }
  | .flushTemp, fs => fs
  | .fsyncTemp, fs => fs
  | .renameTemp, fs => { target := fs.temp, temp := .missing }
  | .releaseLock, fs => fs

/-- Run a list of save steps left to right. -/
def run_save_steps {α : Type} (doc : α) (l : List SaveStep) (fs : KeyFS α) : KeyFS α :=
  l.foldl (fun s op => save_step doc op s) fs

/-- Filesystem after a complete, uninterrupted save_json_secure. -/
def save_json_secure_fs {α : Type} (doc : α) (fs : KeyFS α) : KeyFS α :=
  run_save_steps doc save_json_secure_steps fs

/-- Filesystem after save_json_secure is interrupted: k whole steps have
executed, and if interrupted is true the following step was cut short.
A cut-short temp write leaves arbitrary junk bytes at the temp path; a
cut-short os.replace is atomic, so it either has not happened (this case)
or fully happened (counted as a completed step). -/
def save_json_secure_crash {α : Type} (doc : α) (junk : StoredFile α) (k : Nat)
    (interrupted : Bool) (fs : KeyFS α) : KeyFS α :=
  let fs' := run_save_steps doc (save_json_secure_steps.take k) fs
  if interrupted then
    match save_json_secure_steps.get? k with
    | some .writeTemp => { fs' with temp := junk }
    | _ => fs'
  else fs'

/-! ## ControlService - src/services/control_service.py -/

/-- should_light_be_on (control_service.py lines 72-94): converts the
configured start and end hours and the current wall-clock time to minutes
from midnight and tests window membership, with a separate branch for
windows that wrap past midnight. -/
def should_light_be_on (start_hour end_hour : Int) (tm_hour tm_min : Nat) : Bool :=
  let start_minutes : Int := start_hour * 60
  let end_minutes : Int := end_hour * 60
  let current_minutes : Int := tm_hour * 60 + tm_min
  if end_minutes ≥ start_minutes then
    decide (start_minutes ≤ current_minutes ∧ current_minutes < end_minutes)
  else
    decide (current_minutes ≥ start_minutes ∨ current_minutes < end_minutes)

/-- control_light_auto (control_service.py lines 96-122): off outside the
schedule; inside the schedule the configured light_intensity setting is
used when no brightness reading is available, otherwise intensity is
100 - reading clamped to [0, 100]. The schedule test is the function
should_light_be_on, passed here as a precomputed boolean. -/
def control_light_auto (schedule_on : Bool) (light_sensor_reading : Option ℚ)
    (light_intensity_setting : ℚ) : ℚ :=
  if !schedule_on then 0
  else
    match light_sensor_reading with
    | none => light_intensity_setting
    | some r => max 0 (min 100 (100 - r))

/-- Day names appearing in the watering_days settings list; other marks
other strings, which day_map sends to -1 as in the Python dict get
default. -/
inductive DayName : Type
  | monday | tuesday | wednesday | thursday | friday | saturday | sunday
  | other
  deriving DecidableEq, Repr

/-- day_map (control_service.py lines 159-167) together with the
day_map.get(day, -1) lookup of line 170. -/
def day_map : DayName → Int
  | .monday => 0
  | .tuesday => 1
  | .wednesday => 2
  | .thursday => 3
  | .friday => 4
  | .saturday => 5
  | .sunday => 6
  | .other => -1

/-- should_water_today (control_service.py lines 144-180): returns False
unless today's weekday number is among the mapped watering days, then
tests the wall clock with the source's condition
current_hour == 12 and 50 <= current_minute <= 10. -/
def should_water_today (watering_days : List DayName) (tm_wday : Nat)
    (tm_hour tm_min : Nat) : Bool :=
  let watering_day_numbers : List Int := watering_days.map day_map
  if (tm_wday : Int) ∈ watering_day_numbers then
    if tm_hour = 12 ∧ 50 ≤ tm_min ∧ tm_min ≤ 10 then true else false
  else false

/-! ## GPIO control loop - app.py GPIOController._run_gpio -/

/-- The pump entry of devices_info: the recorded on/off state, the
turned_on_at timestamp (absent when the key has been deleted), and the
manual_trigger flag. -/
structure PumpState : Type where
  state : Bool
  turned_on_at : Option ℚ
  manual_trigger : Bool
  deriving DecidableEq, Repr

/-- The devices_info document: recorded state of each actuator. -/
structure DevicesInfo : Type where
  fan : Bool
  heat_mat : Bool
  sprinkler : Bool
  light_state : Bool
  light_intensity : ℚ
  pump : PumpState
  deriving DecidableEq, Repr

/-- app.py lines 162-170: when the pump is recorded on and has no
turned_on_at timestamp, record the current time; when it is off, delete
the timestamp. -/
def pump_bookkeeping (now : ℚ) (d : DevicesInfo) : DevicesInfo :=
  if d.pump.state then
    if d.pump.turned_on_at.isNone then
      { d with pump := { d.pump with turned_on_at := some now } }
    else d
  else
    { d with pump := { d.pump with turned_on_at := none } }

/-- app.py lines 172-190: while the pump has a turned_on_at timestamp the
fan and heat mat states are forced off and saved; once the elapsed time
exceeds the configured watering_time the pump is turned off and its
manual_trigger and timestamp are removed. -/
def pump_watchdog (now watering_time : ℚ) (d : DevicesInfo) : DevicesInfo :=
  match d.pump.turned_on_at with
  | none => d
  | some t =>
      let elapsed := now - t
      let d1 := { d with fan := false, heat_mat := false }
      if elapsed > watering_time then
        { d1 with pump := { state := false, turned_on_at := none, manual_trigger := false } }
      else d1

/-- One automation pass of GPIOController._run_gpio (app.py lines
148-190) on the devices_info document.  When the sensor document is empty
the whole block is skipped.  apply_automation_rules is passed in as an
arbitrary function auto on the document, so the theorems below hold for
every behaviour of the automation rules. -/
def run_gpio_tick (sensor_present : Bool) (auto : DevicesInfo → DevicesInfo)
    (now watering_time : ℚ) (d0 : DevicesInfo) : DevicesInfo :=
  if sensor_present then
    pump_watchdog now watering_time (pump_bookkeeping now (auto d0))
  else d0

/-- The physical output lines driven by the apply-GPIO section. -/
structure GpioLines : Type where
  fan : Bool
  sprinkler : Bool
  pump : Bool
  deriving DecidableEq, Repr

/-- app.py lines 198-206: the fan and sprinkler lines always follow the
recorded state; the pump line is re-driven only when both the heat mat
and the fan are recorded off, otherwise it keeps its previous value. -/
def apply_gpio_outputs (d : DevicesInfo) (prev : GpioLines) : GpioLines :=
  { fan := d.fan,
    sprinkler := d.sprinkler,
    pump := if d.heat_mat = false ∧ d.fan = false then d.pump.state else prev.pump }

/-! ## SensorService - src/sensor_service.py -/

/-- One record written to sensor_data.json by SensorService.run. -/
structure SensorRecord : Type where
  temperature : Option ℚ
  humidity : Option ℚ
  brightness : Option ℚ
  deriving DecidableEq, Repr

/-- The data record built by one polling cycle of SensorService.run
(sensor_service.py lines 261-286).  The dict is initialised with
temperature 20 + rand_t and humidity 60 + rand_h (random fallback values)
and brightness None; a successful AHT10 read overwrites temperature and
humidity, a raising read leaves the fallback in place (the exception is
only logged); a successful VEML7700 read stores lux / 500 clamped to
[0, 1], a raising read leaves brightness None.  aht_read = none and
veml_read = none model reads that raise. -/
def sensor_cycle_data (rand_t rand_h : ℚ)
    (aht_present : Bool) (aht_read : Option (ℚ × ℚ))
    (veml_present : Bool) (veml_read : Option ℚ) : SensorRecord :=
  let data0 : SensorRecord :=
    { temperature := some (20 + rand_t), humidity := some (60 + rand_h), brightness := none }
  let data1 :=
    if aht_present then
      match aht_read with
      | some (t, h) => { data0 with temperature := some t, humidity := some h }
      | none => data0
    else data0
  let data2 :=
    if veml_present then
      match veml_read with
      | some lux => { data1 with brightness := some (min (max (lux / 500) 0) 1) }
      | none => data1
    else data1
  data2

/-! ## Shutdown - app.py shutdown (lines 310-332) -/

/-- Python: device is a (key, value) tuple yielded by dict.items();
the statement device[..] = .. raises TypeError because tuples do not
support item assignment. -/
def tuple_setitem_state (_dev : String × Bool) : Except PyError (String × Bool) :=
  .error .typeError

/-- The loop for device in devices_info.items(): device[..] = off
of app.py lines 327-328, iterating over the items of the devices_info
document (each device's recorded state modelled by a Bool). -/
def shutdown_reset_loop : List (String × Bool) → Except PyError Unit
  | [] => .ok ()
  | dev :: rest => do
      _ ← tuple_setitem_state dev
      shutdown_reset_loop rest

/-- Final content of the devices_info file after the shutdown fail-safe
block (app.py lines 325-332): the try block loads the file, runs the
reset loop and saves; any exception is caught and only logged, in which
case the save never executes and the file keeps its prior content.  Even
a successful loop mutates only the yielded tuples, never the document. -/
def shutdown (file : List (String × Bool)) : List (String × Bool) :=
  match shutdown_reset_loop file with
  | .ok _ => file
  | .error _ => file

/-! ## SoftwareI2CBridge.writeto - src/sensor_service.py lines 115-127
and src/devices/hardware.py lines 393-413 -/

/-- Observable operations a bus transaction performs, in order. -/
inductive BusOp : Type
  | start
  | writeByte (b : Nat)
  | stop
  deriving DecidableEq, Repr

/-- Failures of a bus write transaction, as raised by writeto. -/
inductive BusError : Type
  | noAckFromAddress
  | nackDuringWrite
  deriving DecidableEq, Repr

/-- The data-byte loop of writeto: each byte of the buffer is written
once; the first byte whose acknowledgment is missing makes the driver
issue a stop condition and raise, abandoning the rest of the buffer.
ack i tells whether the i-th byte put on the wire (0 = address byte) is
acknowledged by the receiver. -/
def write_data_bytes (ack : Nat → Bool) : Nat → List Nat → List BusOp × Except BusError Unit
  | _, [] => ([], .ok ())
  | idx, b :: rest =>
      if ack idx then
        let r := write_data_bytes ack (idx + 1) rest
        (BusOp.writeByte b :: r.1, r.2)
      else
        ([BusOp.writeByte b, BusOp.stop], .error .nackDuringWrite)

/-- writeto(address, buffer, stop): start condition, address byte with
the write bit (address << 1 | 0); a missing acknowledgment on the address
byte raises after a stop condition; otherwise the data bytes are written
in order, and on success a stop condition ends the transaction when the
stop argument is true. -/
def writeto (address : Nat) (buffer : List Nat) (ack : Nat → Bool) (stop : Bool) :
    List BusOp × Except BusError Unit :=
  let addr_byte := address * 2
  if ack 0 then
    let r := write_data_bytes ack 1 buffer
    match r.2 with
    | .ok _ =>
        (BusOp.start :: BusOp.writeByte addr_byte :: r.1 ++ (if stop then [BusOp.stop] else []),
         .ok ())
    | .error e => (BusOp.start :: BusOp.writeByte addr_byte :: r.1, .error e)
  else
    ([BusOp.start, BusOp.writeByte addr_byte, BusOp.stop], .error .noAckFromAddress)

/-- The bytes a trace put on the wire, in order. -/
def bytes_written : List BusOp → List Nat
  | [] => []
  | BusOp.writeByte b :: rest => b :: bytes_written rest
  | _ :: rest => bytes_written rest

/-! ## SettingsService - src/services/settings_service.py

The settings store is written by _save_store with json.dump(data, f,
indent=2) and read back by _load_store, which first rewrites the raw file
content with a loop replacing every adjacent pair of closing braces by a
single one.  Text is modelled as List Char; the document type below
covers the shapes the settings stores hold: a top-level object of
scalars, arrays of scalars, and one level of nested objects. -/

/-- The closing-brace character, written via its code point. -/
def rbrace : Char := Char.ofNat 125

/-- The opening-brace character, written via its code point. -/
def lbrace : Char := Char.ofNat 123

/-- Scalar JSON values appearing in settings documents. -/
inductive JScalar : Type
  | jnum (n : Int)
  | jstr (s : List Char)
  | jbool (b : Bool)
  deriving DecidableEq, Repr

/-- A value of a top-level settings field: a scalar, an array of scalars
such as watering_days, or a nested object of scalars. -/
inductive JEntry : Type
  | scalar (v : JScalar)
  | arr (l : List JScalar)
  | obj (l : List (List Char × JScalar))
  deriving DecidableEq, Repr

/-- A settings document: an object mapping keys to entries. -/
structure JDoc : Type where
  fields : List (List Char × JEntry)
  deriving DecidableEq, Repr

/-- n spaces. -/
def spacesChars (n : Nat) : List Char := List.replicate n ' '

/-- json.dump escaping for one character of a string literal (the
fragment used by the settings stores: quote and backslash escaped,
other characters copied). -/
def escChar (c : Char) : List Char :=
  if c = '"' ∨ c = '\\' then ['\\', c] else [c]

/-- A JSON string literal. -/
def strLit (s : List Char) : List Char := '"' :: s.flatMap escChar ++ ['"']

/-- JSON booleans. -/
def boolChars : Bool → List Char
  | true => ['t', 'r', 'u', 'e']
  | false => ['f', 'a', 'l', 's', 'e']

/-- JSON integers. -/
def intChars : Int → List Char
  | .ofNat n => Nat.toDigits 10 n
  | .negSucc n => '-' :: Nat.toDigits 10 (n + 1)

/-- Serialization of a scalar. -/
def scalarChars : JScalar → List Char
  | .jnum n => intChars n
  | .jstr s => strLit s
  | .jbool b => boolChars b

/-- Join pieces with a separator, as json.dump does with the default
item separator followed by the indent newline. -/
def joinChars (sep : List Char) : List (List Char) → List Char
  | [] => []
  | [x] => x
  | x :: xs => x ++ sep ++ joinChars sep xs

/-- Serialization of a field value whose enclosing line is indented by
ind spaces; json.dump with indent=2 puts every element on its own line,
indented two further spaces, and the closing bracket on its own line at
the enclosing indent. -/
def entryChars (ind : Nat) : JEntry → List Char
  | .scalar v => scalarChars v
  | .arr [] => ['[', ']']
  | .arr l =>
      '[' :: '\n' ::
        joinChars [',', '\n'] (l.map fun v => spacesChars (ind + 2) ++ scalarChars v) ++
        '\n' :: spacesChars ind ++ [']']
  | .obj [] => [lbrace, rbrace]
  | .obj l =>
      lbrace :: '\n' ::
        joinChars [',', '\n']
          (l.map fun kv => spacesChars (ind + 2) ++ strLit kv.1 ++ ':' :: ' ' :: scalarChars kv.2) ++
        '\n' :: spacesChars ind ++ [rbrace]

/-- The file content _save_store produces: json.dump(data, f, indent=2)
(settings_service.py lines 95-102).  Top-level keys are indented two
spaces and the final closing brace sits alone on the last line. -/
def save_store_dumps (d : JDoc) : List Char :=
  match d.fields with
  | [] => [lbrace, rbrace]
  | l =>
      lbrace :: '\n' ::
        joinChars [',', '\n']
          (l.map fun kv => spacesChars 2 ++ strLit kv.1 ++ ':' :: ' ' :: entryChars 2 kv.2) ++
        '\n' :: [rbrace]

/-- Python: the test whether two adjacent closing braces occur in the
content. -/
def hasDoubleBrace : List Char → Bool
  | [] => false
  | c1 :: rest =>
      match rest with
      | [] => false
      | c2 :: _ => (c1 == rbrace && c2 == rbrace) || hasDoubleBrace rest

/-- Python str.replace of the two-closing-brace pattern by a single
closing brace: one left-to-right pass over non-overlapping occurrences.
The scan consumes at least one character per step, so the content length
serves as structural fuel. -/
def replaceDoubleBraceFuel : Nat → List Char → List Char
  | 0, l => l
  | _, [] => []
  | fuel + 1, c1 :: rest =>
      match rest with
      | [] => [c1]
      | c2 :: rest2 =>
          if c1 == rbrace && c2 == rbrace then rbrace :: replaceDoubleBraceFuel fuel rest2
          else c1 :: replaceDoubleBraceFuel fuel rest

/-- Python str.replace of the two-closing-brace pattern, at full fuel. -/
def replaceDoubleBrace (l : List Char) : List Char := replaceDoubleBraceFuel l.length l

/-- The while loop of _load_store (settings_service.py lines 80-82),
with fuel: each pass shortens the content, so the content length bounds
the number of passes. -/
def mangleLoop : Nat → List Char → List Char
  | 0, l => l
  | fuel + 1, l => if hasDoubleBrace l then mangleLoop fuel (replaceDoubleBrace l) else l

/-- The content _load_store hands to json.loads: the raw file content
after the brace-replacing while loop. -/
def load_store_mangle (l : List Char) : List Char := mangleLoop l.length l

/-! ## Spec-side definitions and concrete documents -/

/-- Modelled from the spec: membership of a time of day (in minutes from
midnight) in the light window given by start and end hours; the window
may wrap past midnight, and an equal start and end is a zero-length
window, meaning the light is disabled. -/
def spec_in_light_window (start_hour end_hour : Int) (cur_minutes : Int) : Prop :=
  if start_hour = end_hour then False
  else if start_hour < end_hour then
    start_hour * 60 ≤ cur_minutes ∧ cur_minutes < end_hour * 60
  else
    start_hour * 60 ≤ cur_minutes ∨ cur_minutes < end_hour * 60

/-- Modelled from the spec: intensity equal to
clamp(target_light_intensity - measured_brightness) restricted to the
valid intensity range, which for this code base is [0, 100]. -/
def spec_light_intensity (target_light_intensity measured_brightness : ℚ) : ℚ :=
  max 0 (min 100 (target_light_intensity - measured_brightness))

/-- A settings document whose last field holds a nested object: the
document class the claim about the settings round trip points at. -/
def nested_settings_doc : JDoc :=
  ⟨[("a".toList, JEntry.obj [("b".toList, JScalar.jnum 1)])]⟩

/-- A settings document with a string value containing two adjacent
closing braces. -/
def brace_string_doc : JDoc :=
  ⟨[("plant_name".toList, JEntry.scalar (JScalar.jstr ['x', rbrace, rbrace, 'y']))]⟩

/-- The brace_string_doc document after one closing brace of its string
value has been dropped. -/
def brace_string_doc_mangled : JDoc :=
  ⟨[("plant_name".toList, JEntry.scalar (JScalar.jstr ['x', rbrace, 'y']))]⟩

/-! ## Theorems -/

/-- Claim C9: for every key, load_json_secure never raises to the caller
on a missing or malformed document: when the file does not exist or its
content is not valid JSON it returns the documented default, the empty
document, and it never propagates an exception for any file content. -/
theorem C9_load_never_raises :
    ∀ (α : Type) (empty : α) (f : StoredFile α),
      load_json_secure empty StoredFile.missing = .ok empty ∧
      load_json_secure empty StoredFile.malformed = .ok empty ∧
      (∀ d : α, load_json_secure empty (StoredFile.valid d) = .ok d) ∧
      ∃ d : α, load_json_secure empty f = .ok d := by
  intro α empty f
  refine ⟨rfl, rfl, fun d => rfl, ?_⟩
  cases f <;> exact ⟨_, rfl⟩

/-- Claim C3: the scheduled watering path never fires.  The source's
wall-clock test requires 50 <= current_minute <= 10, which no minute
satisfies, so should_water_today returns False at every time of every
weekday for every watering_days setting — the code contradicts its own
docstring, which promises True around the configured watering time on a
scheduled day. -/
theorem C3_scheduled_watering_never_fires :
    ∀ (watering_days : List DayName) (tm_wday tm_hour tm_min : Nat),
      should_water_today watering_days tm_wday tm_hour tm_min = false := by
  intro days wday h m
  have hm : ¬(h = 12 ∧ 50 ≤ m ∧ m ≤ 10) := by omega
  unfold should_water_today
  simp only [if_neg hm]
  split <;> rfl

/-- Claim C4: in a polling cycle of SensorService.run where the AHT10
read raises, the record written to the store carries the fabricated
random fallback values 20 + rand_t and 60 + rand_h for temperature and
humidity, not an absent value; only the brightness field is absent when
the VEML7700 read raises.  This contradicts the claim (and the reference
poller, which stores None on a failed read). -/
theorem C4_sensor_error_fabricates :
    ∀ rand_t rand_h : ℚ,
      (sensor_cycle_data rand_t rand_h true none true none).temperature = some (20 + rand_t) ∧
      (sensor_cycle_data rand_t rand_h true none true none).humidity = some (60 + rand_h) ∧
      (sensor_cycle_data rand_t rand_h true none true none).temperature ≠ none ∧
      (sensor_cycle_data rand_t rand_h true none true none).brightness = none := by
  intro rand_t rand_h
  exact ⟨rfl, rfl, by simp [sensor_cycle_data], rfl⟩

/-- Claim C5: the shutdown fail-safe does not turn the recorded actuator
states off.  The loop iterates over dict items and assigns into the
yielded (key, value) tuples, which raises TypeError on the first item;
the surrounding except swallows the error and the save never runs, so
the devices_info file keeps its prior content for every input, including
one with actuators recorded on. -/
theorem C5_shutdown_keeps_states :
    (∀ file : List (String × Bool), shutdown file = file) ∧
    shutdown_reset_loop [("fan", true), ("pump", true)] = .error .typeError ∧
    shutdown [("fan", true), ("pump", true)] = [("fan", true), ("pump", true)] := by
  refine ⟨fun file => ?_, rfl, rfl⟩
  unfold shutdown
  cases shutdown_reset_loop file <;> rfl

/-- Claim C8: should_light_be_on agrees with the spec's light window at
every time of day — on exactly inside the window, with wrap past
midnight handled, and a zero-length window (start_hour = end_hour) is
always off; in the latter case the auto-mode light intensity computed by
control_light_auto is 0 for every reading and setting. -/
theorem C8_light_window :
    ∀ (start_hour end_hour : Int) (tm_hour tm_min : Nat),
      (should_light_be_on start_hour end_hour tm_hour tm_min = true ↔
        spec_in_light_window start_hour end_hour (tm_hour * 60 + tm_min)) ∧
      (start_hour = end_hour →
        ∀ (r : Option ℚ) (li : ℚ),
          control_light_auto (should_light_be_on start_hour end_hour tm_hour tm_min) r li = 0) := by
  intro s e h m
  have hwin : should_light_be_on s e h m = true ↔
      spec_in_light_window s e (h * 60 + m) := by
    unfold should_light_be_on spec_in_light_window
    by_cases hc : e * 60 ≥ s * 60
    · rw [if_pos hc]
      split_ifs <;> simp only [decide_eq_true_iff, iff_false] <;> omega
    · rw [if_neg hc]
      split_ifs <;> simp only [decide_eq_true_iff, iff_false] <;> omega
  refine ⟨hwin, fun hse r li => ?_⟩
  have hoff : should_light_be_on s e h m = false := by
    cases hsb : should_light_be_on s e h m
    · rfl
    · exfalso
      have := hwin.mp hsb
      unfold spec_in_light_window at this
      rw [if_pos hse] at this
      exact this
  rw [hoff]
  rfl

/-- Witness for C8_light_window: a zero-length window at noon yields
intensity 0. -/
theorem C8_light_window_witness :
    control_light_auto (should_light_be_on 6 6 12 30) (some 30) 50 = 0 :=
  (C8_light_window 6 6 12 30).2 rfl (some 30) 50

/-- Claim C7 counterexample: inside the light window with measured
brightness 0 and the configured light intensity setting 50, the code
computes intensity 100 (the fixed maximum), not
clamp(target_light_intensity - measured_brightness) = 50 as the claim
states. -/
theorem C7_counterexample :
    control_light_auto true (some 0) 50 = 100 ∧
    spec_light_intensity 50 0 = 50 ∧
    control_light_auto true (some 0) 50 ≠ spec_light_intensity 50 0 := by
  refine ⟨?_, ?_, ?_⟩ <;> norm_num [control_light_auto, spec_light_intensity]

/-- Claim C7 as amended: during the light window in auto mode the
computed intensity is a monotonically decreasing function of the
measured brightness, equal to 100 - measured_brightness clamped to the
valid intensity range [0, 100] (the fixed maximum 100 rather than the
configured target intensity), and when no brightness reading is
available it falls back to the configured default intensity setting. -/
theorem C7_light_intensity :
    ∀ (r1 r2 r li : ℚ),
      (r1 ≤ r2 → control_light_auto true (some r2) li ≤ control_light_auto true (some r1) li) ∧
      control_light_auto true (some r) li = max 0 (min 100 (100 - r)) ∧
      control_light_auto true none li = li := by
  intro r1 r2 r li
  refine ⟨fun h12 => ?_, rfl, rfl⟩
  unfold control_light_auto
  simp only [Bool.not_true, Bool.false_eq_true, if_false]
  exact max_le_max le_rfl (min_le_min le_rfl (by linarith))

/-- Witness for C7_light_intensity: a brighter reading yields at most the
intensity of a darker one. -/
theorem C7_light_intensity_witness :
    control_light_auto true (some 20) 50 ≤ control_light_auto true (some 10) 50 :=
  (C7_light_intensity 10 20 0 50).1 (by norm_num)

/-- Helper: the brace-replacing while loop of _load_store leaves any
content without two adjacent closing braces unchanged. -/
theorem load_store_mangle_eq_of_no_double (l : List Char)
    (h : hasDoubleBrace l = false) : load_store_mangle l = l := by
  unfold load_store_mangle
  cases hl : l.length with
  | zero => rfl
  | succ n => simp [mangleLoop, h]

/-- Claim C10 counterexample: a settings document with a trailing nested
object, serialized by _save_store with indent=2, contains no two
adjacent closing braces (the inner closing brace is followed by a
newline), so _load_store's brace-replacing loop leaves the saved text
unchanged and loading returns exactly the document that was saved —
contrary to the claim that every such document fails the round trip. -/
theorem C10_counterexample :
    hasDoubleBrace (save_store_dumps nested_settings_doc) = false ∧
    load_store_mangle (save_store_dumps nested_settings_doc) =
      save_store_dumps nested_settings_doc := by
  exact ⟨by decide, by decide⟩

/-- Claim C10 as amended: the round trip through _save_store and
_load_store reproduces the saved bytes exactly for every settings
document whose indent=2 serialization contains no two adjacent closing
braces; with indent=2 structural braces are never adjacent, so the
replacing loop only fires on string values that themselves contain two
adjacent closing braces, and for such a document the loaded text is the
serialization of a different document (one closing brace dropped from
the string). -/
theorem C10_settings_roundtrip :
    (∀ d : JDoc, hasDoubleBrace (save_store_dumps d) = false →
        load_store_mangle (save_store_dumps d) = save_store_dumps d) ∧
    load_store_mangle (save_store_dumps brace_string_doc) =
      save_store_dumps brace_string_doc_mangled ∧
    brace_string_doc ≠ brace_string_doc_mangled := by
  exact ⟨fun d h => load_store_mangle_eq_of_no_double _ h, by decide, by decide⟩

/-- Witness for C10_settings_roundtrip: the nested-object document
round-trips unchanged. -/
theorem C10_settings_roundtrip_witness :
    load_store_mangle (save_store_dumps nested_settings_doc) =
      save_store_dumps nested_settings_doc :=
  C10_settings_roundtrip.1 nested_settings_doc (by decide)

/-- Helper for C1: after the automation pass of a tick that observes a
sensor reading, the recorded pump state is never on together with the
recorded heat mat or fan state. -/
theorem pump_watchdog_interlock (now watering_time : ℚ) (d : DevicesInfo) :
    ((pump_watchdog now watering_time (pump_bookkeeping now d)).pump.state &&
      ((pump_watchdog now watering_time (pump_bookkeeping now d)).heat_mat ||
        (pump_watchdog now watering_time (pump_bookkeeping now d)).fan)) = false := by
  by_cases hp : d.pump.state
  · obtain ⟨t, hts⟩ : ∃ t, (pump_bookkeeping now d).pump.turned_on_at = some t := by
      unfold pump_bookkeeping
      rw [if_pos hp]
      by_cases ht : d.pump.turned_on_at.isNone
      · rw [if_pos ht]
        exact ⟨now, rfl⟩
      · rw [if_neg ht]
        cases h' : d.pump.turned_on_at
        · rw [h'] at ht
          exact absurd rfl ht
        · exact ⟨_, rfl⟩
    unfold pump_watchdog
    rw [hts]
    dsimp only
    split <;> simp
  · unfold pump_bookkeeping
    rw [if_neg hp]
    unfold pump_watchdog
    dsimp only
    simp [hp]

/-- Claim C1 counterexample: the interlock is not re-established by every
tick.  Manual commands can record the pump and the fan both on; a
control-loop tick that finds the sensor document empty skips the whole
automation block and leaves that state in place, so after the tick
Pump.power AND (HeatMat.power OR Fan.power) is true. -/
theorem C1_counterexample :
    run_gpio_tick false id 1 3
        ⟨true, false, false, false, 0, ⟨true, some 0, false⟩⟩ =
      ⟨true, false, false, false, 0, ⟨true, some 0, false⟩⟩ ∧
    ((⟨true, false, false, false, 0, ⟨true, some 0, false⟩⟩ : DevicesInfo).pump.state &&
      ((⟨true, false, false, false, 0, ⟨true, some 0, false⟩⟩ : DevicesInfo).heat_mat ||
        (⟨true, false, false, false, 0, ⟨true, some 0, false⟩⟩ : DevicesInfo).fan)) = true :=
  ⟨rfl, rfl⟩

/-- Claim C1 as amended: after every control-loop tick that observes a
nonempty sensor document, the recorded pump state is never on together
with the heat mat or fan — for arbitrary behaviour of the automation
rules, any wall-clock time, any watering duration and any starting
state; and the pump output line is only (re)driven when the recorded
heat mat and fan states are both off, otherwise it keeps its previous
value. -/
theorem C1_pump_interlock :
    ∀ (auto : DevicesInfo → DevicesInfo) (now watering_time : ℚ) (d0 : DevicesInfo)
      (prev : GpioLines),
      ((run_gpio_tick true auto now watering_time d0).pump.state &&
        ((run_gpio_tick true auto now watering_time d0).heat_mat ||
          (run_gpio_tick true auto now watering_time d0).fan)) = false ∧
      (∀ d : DevicesInfo, (apply_gpio_outputs d prev).pump = true →
        prev.pump = true ∨ (d.heat_mat = false ∧ d.fan = false ∧ d.pump.state = true)) := by
  intro auto now wt d0 prev
  constructor
  · unfold run_gpio_tick
    rw [if_pos rfl]
    exact pump_watchdog_interlock now wt (auto d0)
  · intro d hdrive
    simp only [apply_gpio_outputs] at hdrive
    by_cases hc : d.heat_mat = false ∧ d.fan = false
    · rw [if_pos hc] at hdrive
      exact Or.inr ⟨hc.1, hc.2, hdrive⟩
    · rw [if_neg hc] at hdrive
      exact Or.inl hdrive

/-- Witness for C1_pump_interlock: with heat mat and fan recorded off,
a driven pump line traces back to the recorded pump state. -/
theorem C1_pump_interlock_witness :
    (⟨false, false, false⟩ : GpioLines).pump = true ∨
    ((⟨false, false, false, false, 0, ⟨true, some 0, false⟩⟩ : DevicesInfo).heat_mat = false ∧
      (⟨false, false, false, false, 0, ⟨true, some 0, false⟩⟩ : DevicesInfo).fan = false ∧
      (⟨false, false, false, false, 0, ⟨true, some 0, false⟩⟩ : DevicesInfo).pump.state = true) :=
  (C1_pump_interlock id 1 3 ⟨false, false, false, false, 0, ⟨true, some 0, false⟩⟩
      ⟨false, false, false⟩).2
    ⟨false, false, false, false, 0, ⟨true, some 0, false⟩⟩ (by decide)

/-- Claim C2: save_json_secure takes the exclusive lock, writes the
serialized document to the temp path, flushes, fsyncs and atomically
renames it over the target; the rename is the only operation that
touches the target path, so at every interruption point the target holds
either the complete prior document or the complete new one, and a
concurrent read of the key returns one of the two complete documents,
never a truncated one. -/
theorem C2_save_atomic :
    ∀ (α : Type) (doc : α) (junk : StoredFile α) (k : Nat) (intr : Bool) (fs : KeyFS α),
      ((save_json_secure_crash doc junk k intr fs).target = fs.target ∨
        (save_json_secure_crash doc junk k intr fs).target = StoredFile.valid doc) ∧
      (save_json_secure_fs doc fs).target = StoredFile.valid doc ∧
      (∀ s, s ≠ SaveStep.renameTemp → (save_step doc s fs).target = fs.target) ∧
      (∀ empty d0 : α, fs.target = StoredFile.valid d0 →
        load_json_secure empty (save_json_secure_crash doc junk k intr fs).target =
            .ok d0 ∨
          load_json_secure empty (save_json_secure_crash doc junk k intr fs).target =
            .ok doc) := by
  intro α doc junk k intr fs
  have htgt : (save_json_secure_crash doc junk k intr fs).target = fs.target ∨
      (save_json_secure_crash doc junk k intr fs).target = StoredFile.valid doc := by
    rcases k with _ | _ | _ | _ | _ | _ | n
    · cases intr <;> exact Or.inl rfl
    · cases intr <;> exact Or.inl rfl
    · cases intr <;> exact Or.inl rfl
    · cases intr <;> exact Or.inl rfl
    · cases intr <;> exact Or.inl rfl
    · cases intr <;> exact Or.inr rfl
    · have h1 : save_json_secure_steps.take (n + 1 + 1 + 1 + 1 + 1 + 1) = save_json_secure_steps :=
        List.take_of_length_le (by simp [save_json_secure_steps])
      have h2 : save_json_secure_steps.get? (n + 1 + 1 + 1 + 1 + 1 + 1) = none := by
        rw [List.get?_eq_none]
        simp [save_json_secure_steps]
      cases intr <;> simp only [save_json_secure_crash, h1, h2] <;> exact Or.inr rfl
  refine ⟨htgt, rfl, ?_, ?_⟩
  · intro s hs
    cases s
    · rfl
    · rfl
    · rfl
    · rfl
    · exact absurd rfl hs
    · rfl
  · intro empty d0 h0
    rcases htgt with h | h
    · rw [h, h0]
      exact Or.inl rfl
    · rw [h]
      exact Or.inr rfl

/-- Witness for C2_save_atomic: a non-rename step leaves the target
untouched, and a save of the document 1 over the document 0 interrupted
during the temp write still reads back a complete document. -/
theorem C2_save_atomic_witness :
    (save_step (1 : ℚ) SaveStep.flushTemp ⟨StoredFile.valid 0, StoredFile.missing⟩).target =
        (⟨StoredFile.valid 0, StoredFile.missing⟩ : KeyFS ℚ).target ∧
      (load_json_secure (0 : ℚ)
            (save_json_secure_crash (1 : ℚ) StoredFile.malformed 1 true
                ⟨StoredFile.valid 0, StoredFile.missing⟩).target =
          .ok 0 ∨
        load_json_secure (0 : ℚ)
            (save_json_secure_crash (1 : ℚ) StoredFile.malformed 1 true
                ⟨StoredFile.valid 0, StoredFile.missing⟩).target =
          .ok 1) :=
  ⟨(C2_save_atomic ℚ 1 StoredFile.malformed 1 true
        ⟨StoredFile.valid 0, StoredFile.missing⟩).2.2.1 SaveStep.flushTemp (by decide),
    (C2_save_atomic ℚ 1 StoredFile.malformed 1 true
        ⟨StoredFile.valid 0, StoredFile.missing⟩).2.2.2 0 0 rfl⟩

/-- Helper: bytes_written distributes over trace concatenation. -/
theorem bytes_written_append (l1 l2 : List BusOp) :
    bytes_written (l1 ++ l2) = bytes_written l1 ++ bytes_written l2 := by
  induction l1 with
  | nil => rfl
  | cons op rest ih => cases op <;> simp [bytes_written, ih]

/-- Helper for C6, by induction over the buffer: the data-byte loop
succeeds exactly when every remaining byte is acknowledged, the bytes it
puts on the wire are a left-to-right portion of the buffer (each byte at
most once, no retry), and on failure its trace ends with a stop
condition. -/
theorem write_data_bytes_spec (ack : Nat → Bool) :
    ∀ (buf : List Nat) (idx : Nat),
      ((write_data_bytes ack idx buf).2 = .ok () ↔
        ∀ j, j < buf.length → ack (idx + j) = true) ∧
      (∃ k, bytes_written (write_data_bytes ack idx buf).1 = buf.take k) ∧
      ((write_data_bytes ack idx buf).2 ≠ .ok () →
        (write_data_bytes ack idx buf).1.getLast? = some BusOp.stop) := by
  intro buf
  induction buf with
  | nil =>
      intro idx
      refine ⟨?_, ⟨0, rfl⟩, fun hne => absurd rfl hne⟩
      simp [write_data_bytes]
  | cons b rest ih =>
      intro idx
      obtain ⟨ih1, ⟨k, hk⟩, ih3⟩ := ih (idx + 1)
      by_cases hab : ack idx
      · have h1 : write_data_bytes ack idx (b :: rest) =
            (BusOp.writeByte b :: (write_data_bytes ack (idx + 1) rest).1,
              (write_data_bytes ack (idx + 1) rest).2) := by
          simp [write_data_bytes, hab]
        refine ⟨?_, ?_, ?_⟩
        · rw [h1]
          constructor
          · intro hok j hj
            cases j with
            | zero => simpa using hab
            | succ j' =>
                have hx := ih1.mp hok j' (by simpa using Nat.lt_of_succ_lt_succ hj)
                rw [show idx + (j' + 1) = idx + 1 + j' by omega]
                exact hx
          · intro hall
            apply ih1.mpr
            intro j hj
            have hx := hall (j + 1) (by simpa using Nat.succ_lt_succ hj)
            rw [show idx + (j + 1) = idx + 1 + j by omega] at hx
            exact hx
        · refine ⟨k + 1, ?_⟩
          rw [h1]
          simp [bytes_written, hk, List.take_succ_cons]
        · intro hne
          rw [h1] at hne ⊢
          have hlast := ih3 hne
          cases hr : (write_data_bytes ack (idx + 1) rest).1 with
          | nil => rw [hr] at hlast; simp at hlast
          | cons x xs =>
              rw [hr] at hlast
              simpa [List.getLast?_cons_cons] using hlast
      · have h1 : write_data_bytes ack idx (b :: rest) =
            ([BusOp.writeByte b, BusOp.stop], .error .nackDuringWrite) := by
          simp [write_data_bytes, hab]
        refine ⟨?_, ⟨1, by rw [h1]; rfl⟩, fun _ => by rw [h1]; rfl⟩
        · rw [h1]
          constructor
          · intro hok
            exact absurd hok (by simp)
          · intro hall
            exact absurd (by simpa using hall 0 (by simp)) hab

/-- Claim C6: a writeto bus transaction succeeds without error exactly
when the address byte and every data byte are acknowledged; when any
byte is not acknowledged the driver issues a stop condition as the last
bus operation and surfaces a BusError to the caller; and the bytes put
on the wire are always an initial portion of address byte followed by
the buffer — each byte is transmitted at most once, with no retry inside
the transaction. -/
theorem C6_writeto :
    ∀ (address : Nat) (buffer : List Nat) (ack : Nat → Bool),
      ((writeto address buffer ack true).2 = .ok () ↔
        ∀ i, i ≤ buffer.length → ack i = true) ∧
      (∃ k, bytes_written (writeto address buffer ack true).1 =
        (address * 2 :: buffer).take k) ∧
      ((writeto address buffer ack true).2 ≠ .ok () →
        (∃ e, (writeto address buffer ack true).2 = .error e) ∧
          (writeto address buffer ack true).1.getLast? = some BusOp.stop) := by
  intro address buffer ack
  obtain ⟨hd1, ⟨k, hk⟩, hd3⟩ := write_data_bytes_spec ack buffer 1
  by_cases ha : ack 0
  · rcases hr : (write_data_bytes ack 1 buffer).2 with e | u
    · have h1 : writeto address buffer ack true =
          (BusOp.start :: BusOp.writeByte (address * 2) :: (write_data_bytes ack 1 buffer).1,
            .error e) := by
        simp [writeto, ha, hr]
      have hne : (write_data_bytes ack 1 buffer).2 ≠ .ok () := by
        rw [hr]
        simp
      have hlast := hd3 hne
      refine ⟨?_, ?_, ?_⟩
      · rw [h1]
        constructor
        · intro hok
          exact absurd hok (by simp)
        · intro hall
          have : (write_data_bytes ack 1 buffer).2 = .ok () := by
            apply hd1.mpr
            intro j hj
            have hx := hall (j + 1) (by omega)
            rw [show (1 : Nat) + j = j + 1 by omega]
            exact hx
          rw [hr] at this
          exact absurd this (by simp)
      · refine ⟨k + 1, ?_⟩
        rw [h1]
        simp [bytes_written, hk, List.take_succ_cons]
      · intro _
        refine ⟨⟨e, by rw [h1]⟩, ?_⟩
        rw [h1]
        cases hw : (write_data_bytes ack 1 buffer).1 with
        | nil => rw [hw] at hlast; simp at hlast
        | cons x xs =>
            rw [hw] at hlast
            simpa [List.getLast?_cons_cons] using hlast
    · cases u
      have h1 : writeto address buffer ack true =
          (BusOp.start :: BusOp.writeByte (address * 2) ::
              (write_data_bytes ack 1 buffer).1 ++ [BusOp.stop],
            .ok ()) := by
        simp [writeto, ha, hr]
      refine ⟨?_, ?_, ?_⟩
      · rw [h1]
        constructor
        · intro _ i hi
          cases i with
          | zero => exact ha
          | succ i' =>
              have hx := hd1.mp hr i' (by omega)
              rw [show (1 : Nat) + i' = i' + 1 by omega] at hx
              exact hx
        · intro _
          rfl
      · refine ⟨k + 1, ?_⟩
        rw [h1]
        have : bytes_written
            (BusOp.start :: BusOp.writeByte (address * 2) ::
              (write_data_bytes ack 1 buffer).1 ++ [BusOp.stop]) =
            address * 2 :: bytes_written ((write_data_bytes ack 1 buffer).1 ++ [BusOp.stop]) := rfl
        rw [this, bytes_written_append, hk]
        simp [bytes_written, List.take_succ_cons]
      · intro hne
        rw [h1] at hne
        exact absurd rfl hne
  · have h1 : writeto address buffer ack true =
        ([BusOp.start, BusOp.writeByte (address * 2), BusOp.stop], .error .noAckFromAddress) := by
      simp [writeto, ha]
    refine ⟨?_, ⟨1, by rw [h1]; rfl⟩, fun _ => ⟨⟨_, by rw [h1]⟩, by rw [h1]; rfl⟩⟩
    rw [h1]
    constructor
    · intro hok
      exact absurd hok (by simp)
    · intro hall
      exact absurd (hall 0 (by omega)) (by simpa using ha)

/-- Witness for C6_writeto: with every byte acknowledged, the
transaction for address 0x38 and two data bytes raises no error. -/
theorem C6_writeto_witness :
    (writeto 56 [7, 9] (fun _ => true) true).2 = .ok () :=
  (C6_writeto 56 [7, 9] (fun _ => true)).1.mpr (fun _ _ => rfl)

end Leafcore

